import Mathlib

/-!
Verification of the CatAdvisor backend (src/main.py and src/schemas.py).

The repository is a thin CRUD backend: pydantic schemas validate incoming
payloads, FastAPI handlers build Mongo-style filters and delegate to a
document-access layer (`database.py`, not part of the sources available
here; the spec describes its contract in section 4.2, and where a claim
depends on it we model it from the spec and say so in the doc comment).

Python floats are modelled as rationals (ℚ); machine-level floating point
is not at issue in any claim (all are interval-membership checks).
Python dicts are modelled as association lists with insertion order, which
is what CPython dicts preserve.
-/

namespace CatAdvisor

/-! ## Generic string helpers (ASCII case-insensitive substring search) -/

/-- ASCII lowercasing of one character (Python `str.lower` / Mongo `i`
option restricted to ASCII, which covers every string these claims use). -/
def lowerChar (c : Char) : Char :=
  if 65 ≤ c.toNat ∧ c.toNat ≤ 90 then Char.ofNat (c.toNat + 32) else c

/-- ASCII lowercasing of a string. -/
def lowerStr (s : String) : String :=
  ⟨s.data.map lowerChar⟩

/-- Does the character list `n` occur as a contiguous sublist of `h`?
Mirrors substring containment used by a Mongo regex with a literal pattern. -/
def subList (n : List Char) : List Char → Bool
  | [] => n.isEmpty
  | c :: t => n.isPrefixOf (c :: t) || subList n t

/-- Case-insensitive occurrence of `needle` inside `hay`, the semantics the
spec assigns to the `$regex`/`$options: "i"` filter (section 4.2: a
case-insensitive substring match). -/
def occursCI (needle hay : String) : Bool :=
  subList (needle.data.map lowerChar) (hay.data.map lowerChar)

/-- Case-insensitive occurrence in an optional text field: a missing (null)
field matches nothing, as a Mongo regex does not match a null value. -/
def optOccursCI (needle : String) : Option String → Bool
  | none => false
  | some s => occursCI needle s

/-! ## Validation primitives shared by the pydantic schemas -/

/-- A validation failure names the offending field (pydantic reports
field-level detail; the field name is all our claims need). -/
abbrev ValErr := String

/-- pydantic `max_length` on an optional string field. -/
def checkOptLen (maxLen : Nat) : Option String → Bool
  | none => true
  | some s => decide (s.length ≤ maxLen)

/-- pydantic `Field(..., ge, le)` on a required float field. -/
def inRange (lo hi x : ℚ) : Bool :=
  decide (lo ≤ x ∧ x ≤ hi)

/-- pydantic `Field(None, ge, le)` on an optional float field: absent is
accepted, present values must lie in the interval. -/
def checkOptRange (lo hi : ℚ) : Option ℚ → Bool
  | none => true
  | some x => inRange lo hi x

/-- pydantic `HttpUrl`: the library accepts http/https URLs.  The scheme
check is the aspect of the (external-library) validator our claims touch. -/
def isHttpUrl (s : String) : Bool :=
  ("http://".data).isPrefixOf s.data || ("https://".data).isPrefixOf s.data

/-- `Optional[HttpUrl]`: absent accepted, present values must be URLs. -/
def checkOptUrl : Option String → Bool
  | none => true
  | some s => isHttpUrl s

/-! ## Resource types and collection naming (main.py, `collection_name`) -/

/-- The nine schema classes of src/schemas.py. -/
inductive ResourceType
  | user
  | cat
  | sighting
  | place
  | post
  | emergency
  | report
  | badge
  | article
deriving DecidableEq

/-- The Python class name (`model_cls.__name__`) of each schema class. -/
def pyName : ResourceType → String
  | .user => "User"
  | .cat => "Cat"
  | .sighting => "Sighting"
  | .place => "Place"
  | .post => "Post"
  | .emergency => "Emergency"
  | .report => "Report"
  | .badge => "Badge"
  | .article => "Article"

/-- main.py `collection_name`: the lowercase form of the class name. -/
def collection_name (rt : ResourceType) : String :=
  lowerStr (pyName rt)

/-! ## `to_public` (main.py): id normalization on raw store documents -/

/-- A BSON-ish value.  `oid` is a store-assigned ObjectId carrying its hex
string; Python `str()` of it yields that string. -/
inductive BVal
  | oid (s : String)
  | str (s : String)
  | num (q : ℚ)
  | boolean (b : Bool)
  | null
deriving DecidableEq

/-- Python `str()` of a BSON value (only `oid` is ever stringified by
`to_public`, the rest are given for totality). -/
def pyStr : BVal → String
  | .oid s => s
  | .str s => s
  | .num q => toString q
  | .boolean b => if b then "True" else "False"
  | .null => "None"

/-- A document is a Python dict: ordered association list with unique keys. -/
abbrev Doc := List (String × BVal)

/-- Dict key lookup. -/
def lookupKey (k : String) : Doc → Option BVal
  | [] => none
  | (k₀, v) :: t => if k₀ = k then some v else lookupKey k t

/-- Dict `pop`: remove the binding of `k`. -/
def eraseKey (k : String) : Doc → Doc
  | [] => []
  | (k₀, v) :: t => if k₀ = k then eraseKey k t else (k₀, v) :: eraseKey k t

/-- Dict assignment `d[k] = v`: update in place if present, else append. -/
def setKey (k : String) (v : BVal) : Doc → Doc
  | [] => [(k, v)]
  | (k₀, v₀) :: t => if k₀ = k then (k, v) :: t else (k₀, v₀) :: setKey k v t

/-- main.py `to_public`: on a document carrying the internal `_id`, pop it
and expose its string form under `id`; an empty or `_id`-less document is
returned unchanged. -/
def to_public (doc : Doc) : Doc :=
  match lookupKey "_id" doc with
  | none => doc
  | some v => setKey "id" (BVal.str (pyStr v)) (eraseKey "_id" doc)

/-! ## Enumerated field values (the `Literal[...]` types of schemas.py) -/

/-- `User.role`. -/
inductive Role
  | user
  | volunteer
  | moderator
  | admin
deriving DecidableEq

/-- pydantic coercion of a string into the `Role` literal type. -/
def roleOfString : String → Option Role
  | "user" => some .user
  | "volunteer" => some .volunteer
  | "moderator" => some .moderator
  | "admin" => some .admin
  | _ => none

/-- `Cat.status`. -/
inductive CatStatus
  | unknown
  | sterilized
  | adopted
  | injured
deriving DecidableEq

/-- pydantic coercion of a string into the `Cat.status` literal type. -/
def catStatusOfString : String → Option CatStatus
  | "unknown" => some .unknown
  | "sterilized" => some .sterilized
  | "adopted" => some .adopted
  | "injured" => some .injured
  | _ => none

/-- `Sighting.status`. -/
inductive SightingStatus
  | normal
  | urgent
deriving DecidableEq

/-- pydantic coercion of a string into the `Sighting.status` literal type. -/
def sightingStatusOfString : String → Option SightingStatus
  | "normal" => some .normal
  | "urgent" => some .urgent
  | _ => none

/-- `Place.category`. -/
inductive PlaceCategory
  | cat_cafe
  | shelter
  | colony
  | event
  | art
deriving DecidableEq

/-- pydantic coercion of a string into the `Place.category` literal type. -/
def placeCategoryOfString : String → Option PlaceCategory
  | "cat_cafe" => some .cat_cafe
  | "shelter" => some .shelter
  | "colony" => some .colony
  | "event" => some .event
  | "art" => some .art
  | _ => none

/-- `Emergency.status` (`open` is a Lean keyword, hence `openE`). -/
inductive EmergencyStatus
  | openE
  | inProgress
  | resolved
deriving DecidableEq

/-- pydantic coercion of a string into the `Emergency.status` literal type. -/
def emergencyStatusOfString : String → Option EmergencyStatus
  | "open" => some .openE
  | "in_progress" => some .inProgress
  | "resolved" => some .resolved
  | _ => none

/-- `max_length` on a required string field. -/
def checkLen (maxLen : Nat) (s : String) : Bool :=
  decide (s.length ≤ maxLen)

/-! ## Validated models (the output of pydantic validation, schemas.py) -/

/-- schemas.py `User`. -/
structure User where
  email : String
  nickname : String
  avatar_url : Option String
  bio : Option String
  role : Role
  points : Int
  badges : List String
  is_active : Bool
deriving DecidableEq

/-- schemas.py `Cat`. -/
structure Cat where
  name : Option String
  description : Option String
  last_known_lat : Option ℚ
  last_known_lng : Option ℚ
  status : CatStatus
  colony : Option String
  photo_url : Option String
deriving DecidableEq

/-- schemas.py `Sighting` (`seen_at` as an epoch timestamp). -/
structure Sighting where
  cat_id : Option String
  lat : ℚ
  lng : ℚ
  note : Option String
  photo_url : Option String
  status : SightingStatus
  created_by : Option String
  seen_at : Option Int
deriving DecidableEq

/-- schemas.py `Place`. -/
structure Place where
  name : String
  category : PlaceCategory
  description : Option String
  lat : ℚ
  lng : ℚ
  address : Option String
  opening_hours : Option String
  contact : Option String
  website : Option String
  rating : Option ℚ
  rating_count : Int
deriving DecidableEq

/-- schemas.py `Emergency`. -/
structure Emergency where
  reporter_id : Option String
  lat : ℚ
  lng : ℚ
  description : String
  photo_url : Option String
  status : EmergencyStatus
deriving DecidableEq

/-! ## Raw request payloads and the pydantic validators

A payload is the JSON body after type decoding: required scalar fields are
present with their declared type, optional fields and fields with defaults
may be absent (`none`).  The validator applies the per-field constraints of
schemas.py (bounds, max lengths, literal membership, URL shape) and either
produces the validated model or reports the offending field, exactly as
pydantic does before a handler body ever runs. -/

/-- Raw `Cat` create body. -/
structure CatPayload where
  name : Option String := none
  description : Option String := none
  last_known_lat : Option ℚ := none
  last_known_lng : Option ℚ := none
  status : Option String := none
  colony : Option String := none
  photo_url : Option String := none

/-- Validation of a `Cat` body per schemas.py. -/
def validateCat (p : CatPayload) : Except ValErr Cat :=
  if !checkOptLen 500 p.description then .error "description"
  else if !checkOptRange (-90) 90 p.last_known_lat then .error "last_known_lat"
  else if !checkOptRange (-180) 180 p.last_known_lng then .error "last_known_lng"
  else
    match catStatusOfString (p.status.getD "unknown") with
    | none => .error "status"
    | some st =>
      if !checkOptUrl p.photo_url then .error "photo_url"
      else .ok ⟨p.name, p.description, p.last_known_lat, p.last_known_lng,
                st, p.colony, p.photo_url⟩

/-- Raw `Sighting` create body. -/
structure SightingPayload where
  cat_id : Option String := none
  lat : ℚ
  lng : ℚ
  note : Option String := none
  photo_url : Option String := none
  status : Option String := none
  created_by : Option String := none
  seen_at : Option Int := none

/-- Validation of a `Sighting` body per schemas.py. -/
def validateSighting (p : SightingPayload) : Except ValErr Sighting :=
  if !inRange (-90) 90 p.lat then .error "lat"
  else if !inRange (-180) 180 p.lng then .error "lng"
  else if !checkOptLen 400 p.note then .error "note"
  else if !checkOptUrl p.photo_url then .error "photo_url"
  else
    match sightingStatusOfString (p.status.getD "normal") with
    | none => .error "status"
    | some st =>
      .ok ⟨p.cat_id, p.lat, p.lng, p.note, p.photo_url, st,
           p.created_by, p.seen_at⟩

/-- Raw `Place` create body. -/
structure PlacePayload where
  name : String
  category : String
  description : Option String := none
  lat : ℚ
  lng : ℚ
  address : Option String := none
  opening_hours : Option String := none
  contact : Option String := none
  website : Option String := none
  rating : Option ℚ := none
  rating_count : Int := 0

/-- Validation of a `Place` body per schemas.py. -/
def validatePlace (p : PlacePayload) : Except ValErr Place :=
  match placeCategoryOfString p.category with
  | none => .error "category"
  | some cat =>
    if !checkOptLen 600 p.description then .error "description"
    else if !inRange (-90) 90 p.lat then .error "lat"
    else if !inRange (-180) 180 p.lng then .error "lng"
    else if !checkOptUrl p.website then .error "website"
    else if !checkOptRange 0 5 p.rating then .error "rating"
    else .ok ⟨p.name, cat, p.description, p.lat, p.lng, p.address,
              p.opening_hours, p.contact, p.website, p.rating, p.rating_count⟩

/-- Raw `Emergency` create body. -/
structure EmergencyPayload where
  reporter_id : Option String := none
  lat : ℚ
  lng : ℚ
  description : String
  photo_url : Option String := none
  status : Option String := none

/-- Validation of an `Emergency` body per schemas.py. -/
def validateEmergency (p : EmergencyPayload) : Except ValErr Emergency :=
  if !inRange (-90) 90 p.lat then .error "lat"
  else if !inRange (-180) 180 p.lng then .error "lng"
  else if !checkLen 500 p.description then .error "description"
  else if !checkOptUrl p.photo_url then .error "photo_url"
  else
    match emergencyStatusOfString (p.status.getD "open") with
    | none => .error "status"
    | some st =>
      .ok ⟨p.reporter_id, p.lat, p.lng, p.description, p.photo_url, st⟩

/-! ## Create endpoints (main.py POST handlers) -/

/-- Modelled from the spec: `create_document` lives in `database.py`, which
is not among the available sources.  Per spec section 4.2 it persists the
validated record as one new document and returns a store-assigned unique
identifier as an opaque string.  The collection is modelled as the list of
its documents; the fresh id is distinct from all previously issued ones. -/
def create_document {α : Type} (store : List α) (doc : α) : List α × String :=
  (store ++ [doc], toString store.length)

/-- POST /cats: FastAPI validates the body before the handler body runs; a
validation failure is a client error and `create_document` is never
reached.  The pair is (store after the call, response). -/
def create_cat (store : List Cat) (p : CatPayload) :
    List Cat × Except ValErr String :=
  match validateCat p with
  | .error e => (store, .error e)
  | .ok c =>
    let r := create_document store c
    (r.1, .ok r.2)

/-- POST /sightings. -/
def create_sighting (store : List Sighting) (p : SightingPayload) :
    List Sighting × Except ValErr String :=
  match validateSighting p with
  | .error e => (store, .error e)
  | .ok s =>
    let r := create_document store s
    (r.1, .ok r.2)

/-- POST /places. -/
def create_place (store : List Place) (p : PlacePayload) :
    List Place × Except ValErr String :=
  match validatePlace p with
  | .error e => (store, .error e)
  | .ok pl =>
    let r := create_document store pl
    (r.1, .ok r.2)

/-- POST /emergencies. -/
def create_emergency (store : List Emergency) (p : EmergencyPayload) :
    List Emergency × Except ValErr String :=
  match validateEmergency p with
  | .error e => (store, .error e)
  | .ok em =>
    let r := create_document store em
    (r.1, .ok r.2)

/-! ## Signup (main.py `signup` and `SignupPayload`) -/

/-- A raw signup body.  `SignupPayload` declares only email, nickname and
avatar_url; pydantic ignores unknown keys, so values a caller supplies for
role, points, badges or is_active are carried here only to show they have
no effect. -/
structure SignupRaw where
  email : Option String := none
  nickname : Option String := none
  avatar_url : Option String := none
  role : Option String := none
  points : Option Int := none
  badges : Option (List String) := none
  is_active : Option Bool := none

/-- main.py `SignupPayload` after validation. -/
structure SignupPayload where
  email : String
  nickname : String
  avatar_url : Option String
deriving DecidableEq

/-- pydantic validation of `SignupPayload`: email and nickname are required
(no other constraint is declared on them there); unknown keys are ignored. -/
def parseSignup (r : SignupRaw) : Except ValErr SignupPayload :=
  match r.email with
  | none => .error "email"
  | some e =>
    match r.nickname with
    | none => .error "nickname"
    | some n => .ok ⟨e, n, r.avatar_url⟩

/-- Validation run by the `User(...)` constructor call inside `signup`
(schemas.py `User`): nickname max_length 40, bio max_length 300, role
literal, avatar URL shape. -/
def validateUser (email nickname : String) (avatar_url bio : Option String)
    (role : String) (points : Int) (badges : List String)
    (is_active : Bool) : Except ValErr User :=
  if !checkLen 40 nickname then .error "nickname"
  else if !checkOptUrl avatar_url then .error "avatar_url"
  else if !checkOptLen 300 bio then .error "bio"
  else
    match roleOfString role with
    | none => .error "role"
    | some ro => .ok ⟨email, nickname, avatar_url, bio, ro, points,
                      badges, is_active⟩

/-- main.py `signup`: parse the body as `SignupPayload`, then build a
`User` with fixed role "user", points 0, badges [], is_active true, and
persist it.  The pair is (user collection after the call, response). -/
def signup (r : SignupRaw) (store : List User) :
    List User × Except ValErr String :=
  match parseSignup r with
  | .error e => (store, .error e)
  | .ok p =>
    match validateUser p.email p.nickname p.avatar_url none "user" 0 [] true with
    | .error e => (store, .error e)
    | .ok u =>
      let res := create_document store u
      (res.1, .ok res.2)

/-! ## List endpoints (main.py GET handlers)

Stored documents carry the schema fields (enums as the strings Mongo
stores) plus the store-assigned identifier. -/

/-- A stored cat document, id already exposed in its public form. -/
structure CatDoc where
  id : String
  name : Option String
  description : Option String
  last_known_lat : Option ℚ
  last_known_lng : Option ℚ
  status : String
  colony : Option String
  photo_url : Option String
deriving DecidableEq

/-- A stored sighting document. -/
structure SightingDoc where
  id : String
  cat_id : Option String
  lat : ℚ
  lng : ℚ
  note : Option String
  photo_url : Option String
  status : String
  created_by : Option String
  seen_at : Option Int
deriving DecidableEq

/-- A stored place document. -/
structure PlaceDoc where
  id : String
  name : String
  category : String
  description : Option String
  lat : ℚ
  lng : ℚ
  address : Option String
  opening_hours : Option String
  contact : Option String
  website : Option String
  rating : Option ℚ
  rating_count : Int
deriving DecidableEq

/-- A stored emergency document. -/
structure EmergencyDoc where
  id : String
  reporter_id : Option String
  lat : ℚ
  lng : ℚ
  description : String
  photo_url : Option String
  status : String
deriving DecidableEq

/-- Python truthiness of an `Optional[str]` query parameter (`if q:`):
both absent and empty string are falsy. -/
def truthyStr : Option String → Bool
  | none => false
  | some s => !s.isEmpty

/-- FastAPI `Query(dflt, ge=lo, le=hi)` on the `limit` parameter: absent
takes the default, out-of-range values are a client error raised before
the handler body (hence before any query) runs. -/
def parseLimit (lo hi dflt : Int) : Option Int → Except ValErr Int
  | none => .ok dflt
  | some n => if lo ≤ n ∧ n ≤ hi then .ok n else .error "limit"

/-- The cat filter built by `list_cats`: `$or` of case-insensitive regexes
on name and description with the literal pattern `q` (spec section 4.2
fixes its meaning as a case-insensitive substring match; a null field does
not match). -/
def catMatches : Option String → CatDoc → Bool
  | none, _ => true
  | some q, c => optOccursCI q c.name || optOccursCI q c.description

/-- Modelled from the spec: `get_documents` lives in `database.py`, which
is not among the available sources.  Per spec section 4.2 it returns up to
`limit` documents matching the filter (all matching documents when fewer). -/
def get_documents_cats (filt : Option String) (limit : Nat)
    (store : List CatDoc) : List CatDoc :=
  (store.filter (catMatches filt)).take limit

/-- GET /cats. -/
def list_cats (q : Option String) (limit : Option Int)
    (store : List CatDoc) : Except ValErr (List CatDoc) :=
  match parseLimit 1 200 50 limit with
  | .error e => .error e
  | .ok l =>
    let filt := if truthyStr q then q else none
    .ok (get_documents_cats filt l.toNat store)

/-- The sighting filter built by `list_sightings`: optional equality on
status, optional `$gte`/`$lte` interval pair on lat and lng. -/
structure SightingFilter where
  status : Option String
  bbox : Option (ℚ × ℚ × ℚ × ℚ)

/-- Evaluation of a sighting filter on one document. -/
def sightingMatches (f : SightingFilter) (s : SightingDoc) : Bool :=
  (match f.status with
   | none => true
   | some v => s.status == v) &&
  (match f.bbox with
   | none => true
   | some (latLo, latHi, lngLo, lngHi) =>
     decide (latLo ≤ s.lat ∧ s.lat ≤ latHi ∧ lngLo ≤ s.lng ∧ s.lng ≤ lngHi))

/-- Modelled from the spec: `get_documents` for the sighting collection,
as for `get_documents_cats`. -/
def get_documents_sightings (f : SightingFilter) (limit : Nat)
    (store : List SightingDoc) : List SightingDoc :=
  (store.filter (sightingMatches f)).take limit

/-- GET /sightings: the bbox clause is added only when all four corners are
present, with `min`/`max` of the opposing corners on each axis. -/
def list_sightings (ne_lat ne_lng sw_lat sw_lng : Option ℚ)
    (status : Option String) (limit : Option Int)
    (store : List SightingDoc) : Except ValErr (List SightingDoc) :=
  match parseLimit 1 500 100 limit with
  | .error e => .error e
  | .ok l =>
    let sf := if truthyStr status then status else none
    let bbox :=
      match ne_lat, ne_lng, sw_lat, sw_lng with
      | some a, some b, some c, some d =>
        some (min c a, max c a, min d b, max d b)
      | _, _, _, _ => none
    .ok (get_documents_sightings ⟨sf, bbox⟩ l.toNat store)

/-- The place filter built by `list_places`: optional equality on category. -/
def placeMatches : Option String → PlaceDoc → Bool
  | none, _ => true
  | some v, p => p.category == v

/-- Modelled from the spec: `get_documents` for the place collection. -/
def get_documents_places (filt : Option String) (limit : Nat)
    (store : List PlaceDoc) : List PlaceDoc :=
  (store.filter (placeMatches filt)).take limit

/-- GET /places. -/
def list_places (category : Option String) (limit : Option Int)
    (store : List PlaceDoc) : Except ValErr (List PlaceDoc) :=
  match parseLimit 1 300 100 limit with
  | .error e => .error e
  | .ok l =>
    let filt := if truthyStr category then category else none
    .ok (get_documents_places filt l.toNat store)

/-- The emergency filter built by `list_emergencies`: optional equality on
status. -/
def emergencyMatches : Option String → EmergencyDoc → Bool
  | none, _ => true
  | some v, e => e.status == v

/-- Modelled from the spec: `get_documents` for the emergency collection. -/
def get_documents_emergencies (filt : Option String) (limit : Nat)
    (store : List EmergencyDoc) : List EmergencyDoc :=
  (store.filter (emergencyMatches filt)).take limit

/-- GET /emergencies. -/
def list_emergencies (status : Option String) (limit : Option Int)
    (store : List EmergencyDoc) : Except ValErr (List EmergencyDoc) :=
  match parseLimit 1 200 50 limit with
  | .error e => .error e
  | .ok l =>
    let filt := if truthyStr status then status else none
    .ok (get_documents_emergencies filt l.toNat store)

/-! ## Diagnostic store-connectivity probe (main.py `test_database`)

Store probes may raise; the handler wraps them in try/except.  We model a
probe step as an `Except String` value (error = the exception's message)
and the handler as a computation in `Except String`: an uncaught store
error would surface as `.error`. -/

/-- The response body of GET /test. -/
structure TestResp where
  backend : String
  database : String
  database_url : String
  database_name : String
  connection_status : String
  collections : List String
deriving DecidableEq

/-- One state of the store connection as the probe can observe it:
whether evaluating the `db` handle check raises or yields a live/absent
connection, the two environment variables, and what listing the
collection names does (succeed or raise). -/
structure DbEnv where
  dbCheck : Except String Bool
  databaseUrlSet : Bool
  databaseName : Option String
  listCollectionNames : Except String (List String)

/-- main.py `test_database`: start from the all-negative response, probe
the connection under the outer try/except, list collections under the
inner try/except, and report failures as status strings in the body. -/
def test_database (env : DbEnv) : Except String TestResp :=
  let resp0 : TestResp :=
    ⟨"✅ Running", "❌ Not Available", "❌ Not Set", "❌ Not Set",
     "Not Connected", []⟩
  match env.dbCheck with
  | .error e => .ok { resp0 with database := "❌ Error: " ++ e.take 80 }
  | .ok false => .ok resp0
  | .ok true =>
    let r1 : TestResp :=
      { resp0 with
        database := "✅ Available"
        database_url := if env.databaseUrlSet then "✅ Set" else "❌ Not Set"
        database_name :=
          match env.databaseName with
          | some s => if s.isEmpty then "❌ Not Set" else s
          | none => "❌ Not Set"
        connection_status := "Connected" }
    match env.listCollectionNames with
    | .ok cols =>
      .ok { r1 with collections := cols, database := "✅ Connected & Working" }
    | .error e =>
      .ok { r1 with database := "⚠️  Connected but Error: " ++ e.take 80 }

/-! ## Claim-side predicates

These are written from the words of the claims (not from the code), to be
compared with the behaviour of the embedded handlers. -/

/-- The claim's "a latitude outside [-90,90] or a longitude outside
[-180,180]" for a Cat body (both coordinates optional there). -/
def catCoordOut (p : CatPayload) : Prop :=
  (∃ x, p.last_known_lat = some x ∧ (x < -90 ∨ 90 < x)) ∨
  (∃ y, p.last_known_lng = some y ∧ (y < -180 ∨ 180 < y))

/-- The claim's "all latitudes in [-90,90] and longitudes in [-180,180]"
for a Cat body. -/
def catCoordIn (p : CatPayload) : Prop :=
  (∀ x, p.last_known_lat = some x → -90 ≤ x ∧ x ≤ 90) ∧
  (∀ y, p.last_known_lng = some y → -180 ≤ y ∧ y ≤ 180)

/-- The claim's "other fields valid" for a Cat body: every non-coordinate
constraint of the schema holds. -/
def catOthersValid (p : CatPayload) : Prop :=
  checkOptLen 500 p.description = true ∧
  (catStatusOfString (p.status.getD "unknown")).isSome = true ∧
  checkOptUrl p.photo_url = true

/-- Coordinate out of range for a Sighting body. -/
def sightingCoordOut (p : SightingPayload) : Prop :=
  p.lat < -90 ∨ 90 < p.lat ∨ p.lng < -180 ∨ 180 < p.lng

/-- Coordinates in range for a Sighting body. -/
def sightingCoordIn (p : SightingPayload) : Prop :=
  -90 ≤ p.lat ∧ p.lat ≤ 90 ∧ -180 ≤ p.lng ∧ p.lng ≤ 180

/-- Other fields valid for a Sighting body. -/
def sightingOthersValid (p : SightingPayload) : Prop :=
  checkOptLen 400 p.note = true ∧
  checkOptUrl p.photo_url = true ∧
  (sightingStatusOfString (p.status.getD "normal")).isSome = true

/-- Coordinate out of range for a Place body. -/
def placeCoordOut (p : PlacePayload) : Prop :=
  p.lat < -90 ∨ 90 < p.lat ∨ p.lng < -180 ∨ 180 < p.lng

/-- Coordinates in range for a Place body. -/
def placeCoordIn (p : PlacePayload) : Prop :=
  -90 ≤ p.lat ∧ p.lat ≤ 90 ∧ -180 ≤ p.lng ∧ p.lng ≤ 180

/-- Other fields valid for a Place body. -/
def placeOthersValid (p : PlacePayload) : Prop :=
  (placeCategoryOfString p.category).isSome = true ∧
  checkOptLen 600 p.description = true ∧
  checkOptUrl p.website = true ∧
  checkOptRange 0 5 p.rating = true

/-- Coordinate out of range for an Emergency body. -/
def emergencyCoordOut (p : EmergencyPayload) : Prop :=
  p.lat < -90 ∨ 90 < p.lat ∨ p.lng < -180 ∨ 180 < p.lng

/-- Coordinates in range for an Emergency body. -/
def emergencyCoordIn (p : EmergencyPayload) : Prop :=
  -90 ≤ p.lat ∧ p.lat ≤ 90 ∧ -180 ≤ p.lng ∧ p.lng ≤ 180

/-- Other fields valid for an Emergency body. -/
def emergencyOthersValid (p : EmergencyPayload) : Prop :=
  checkLen 500 p.description = true ∧
  checkOptUrl p.photo_url = true ∧
  (emergencyStatusOfString (p.status.getD "open")).isSome = true

/-- The search claim's predicate, from its words: q occurs
case-insensitively as a literal substring of the name field or of the
description field, the two combined with OR; a missing (null) field has no
content for q to occur in. -/
def claimCatMatch (q : String) (c : CatDoc) : Bool :=
  (match c.name with
   | none => false
   | some s => occursCI q s) ||
  (match c.description with
   | none => false
   | some s => occursCI q s)

/-! ## Concrete sample inputs used by the witnesses -/

/-- A Cat body whose latitude 91 is out of range. -/
def catBadLatP : CatPayload :=
  { last_known_lat := some 91 }

/-- A Cat body with both coordinates in range and all fields valid. -/
def catGoodP : CatPayload :=
  { name := some "Tom", last_known_lat := some 45,
    last_known_lng := some (-120) }

/-- A Sighting body whose longitude 181 is out of range. -/
def sightingBadLngP : SightingPayload :=
  { lat := 0, lng := 181 }

/-- A valid Sighting body. -/
def sightingGoodP : SightingPayload :=
  { lat := 45, lng := 7 }

/-- A Place body whose latitude -91 is out of range. -/
def placeBadLatP : PlacePayload :=
  { name := "Cafe", category := "shelter", lat := -91, lng := 0 }

/-- A valid Place body. -/
def placeGoodP : PlacePayload :=
  { name := "Cafe", category := "shelter", lat := 41, lng := 2 }

/-- An Emergency body whose latitude 91 is out of range. -/
def emergencyBadLatP : EmergencyPayload :=
  { lat := 91, lng := 0, description := "injured cat" }

/-- A valid Emergency body. -/
def emergencyGoodP : EmergencyPayload :=
  { lat := 45, lng := 7, description := "injured cat" }

/-- A signup body with no email. -/
def signupMissingEmail : SignupRaw :=
  { nickname := some "Ann" }

/-- A signup body that also smuggles values for the four fixed fields. -/
def signupFull : SignupRaw :=
  { email := some "ann@example.com", nickname := some "Ann",
    role := some "admin", points := some 99, badges := some ["GOLD"],
    is_active := some false }

/-- A stored cat with description "Friendly tabby". -/
def catTabby : CatDoc :=
  { id := "c1", name := none, description := some "Friendly tabby",
    last_known_lat := none, last_known_lng := none, status := "unknown",
    colony := none, photo_url := none }

/-- A stored cat with neither name nor description. -/
def catNoText : CatDoc :=
  { id := "c0", name := none, description := none,
    last_known_lat := none, last_known_lng := none, status := "unknown",
    colony := none, photo_url := none }

/-- A stored sighting at the origin. -/
def sightingOrigin : SightingDoc :=
  { id := "s0", cat_id := none, lat := 0, lng := 0, note := none,
    photo_url := none, status := "normal", created_by := none,
    seen_at := none }

/-! ### Association-list lemmas for `to_public` -/

theorem lookupKey_setKey_self (k : String) (v : BVal) (d : Doc) :
    lookupKey k (setKey k v d) = some v := by
  induction d with
  | nil => simp [setKey, lookupKey]
  | cons p t ih =>
    obtain ⟨k₀, v₀⟩ := p
    by_cases h : k₀ = k <;> simp [setKey, lookupKey, h, ih]

theorem lookupKey_setKey_ne (k k₀ : String) (v : BVal) (d : Doc)
    (h : k₀ ≠ k) : lookupKey k₀ (setKey k v d) = lookupKey k₀ d := by
  induction d with
  | nil => simp [setKey, lookupKey, Ne.symm h]
  | cons p t ih =>
    obtain ⟨k₁, v₁⟩ := p
    by_cases h₁ : k₁ = k
    · subst h₁
      simp [setKey, lookupKey, Ne.symm h]
    · simp [setKey, lookupKey, h₁, ih]

theorem lookupKey_eraseKey_self (k : String) (d : Doc) :
    lookupKey k (eraseKey k d) = none := by
  induction d with
  | nil => simp [eraseKey, lookupKey]
  | cons p t ih =>
    obtain ⟨k₀, v₀⟩ := p
    by_cases h : k₀ = k <;> simp [eraseKey, lookupKey, h, ih]

theorem lookupKey_eraseKey_ne (k k₀ : String) (d : Doc) (h : k₀ ≠ k) :
    lookupKey k₀ (eraseKey k d) = lookupKey k₀ d := by
  induction d with
  | nil => rfl
  | cons p t ih =>
    obtain ⟨k₁, v₁⟩ := p
    by_cases h₁ : k₁ = k
    · subst h₁
      simp [eraseKey, lookupKey, Ne.symm h, ih]
    · simp [eraseKey, lookupKey, h₁, ih]

end CatAdvisor

namespace CatAdvisor

/-- C8: the collection-name mapping is deterministic (it is a function),
equals the lowercase class name for each of the nine resource types, and
the nine derived names are pairwise distinct. -/
theorem collection_names_lowercase_and_distinct :
    collection_name .user = "user" ∧
    collection_name .cat = "cat" ∧
    collection_name .sighting = "sighting" ∧
    collection_name .place = "place" ∧
    collection_name .post = "post" ∧
    collection_name .emergency = "emergency" ∧
    collection_name .report = "report" ∧
    collection_name .badge = "badge" ∧
    collection_name .article = "article" ∧
    ([collection_name .user, collection_name .cat, collection_name .sighting,
      collection_name .place, collection_name .post,
      collection_name .emergency, collection_name .report,
      collection_name .badge, collection_name .article]).Nodup := by
  refine ⟨?_, ?_, ?_, ?_, ?_, ?_, ?_, ?_, ?_, ?_⟩ <;> decide

/-- C7: a store document carrying the internal identifier `_id` is returned
by `to_public` with that identifier exposed as a string under `id`, with
`_id` itself gone, and with every other field unchanged. -/
theorem to_public_normalizes_id (doc : Doc) (v : BVal)
    (h : lookupKey "_id" doc = some v) :
    lookupKey "id" (to_public doc) = some (BVal.str (pyStr v)) ∧
    lookupKey "_id" (to_public doc) = none ∧
    ∀ k, k ≠ "_id" → k ≠ "id" →
      lookupKey k (to_public doc) = lookupKey k doc := by
  unfold to_public
  rw [h]
  refine ⟨lookupKey_setKey_self _ _ _, ?_, ?_⟩
  · rw [lookupKey_setKey_ne _ _ _ _ (by decide)]
    exact lookupKey_eraseKey_self _ _
  · intro k hk1 hk2
    rw [lookupKey_setKey_ne _ _ _ _ hk2]
    exact lookupKey_eraseKey_ne _ _ _ hk1

/-- Witness for C7 at a concrete two-field document. -/
theorem to_public_normalizes_id_witness :
    lookupKey "id"
      (to_public [("_id", BVal.oid "abc123"), ("name", BVal.str "Tom")]) =
      some (BVal.str "abc123") ∧
    lookupKey "_id"
      (to_public [("_id", BVal.oid "abc123"), ("name", BVal.str "Tom")]) =
      none ∧
    lookupKey "name"
      (to_public [("_id", BVal.oid "abc123"), ("name", BVal.str "Tom")]) =
      some (BVal.str "Tom") := by
  have h := to_public_normalizes_id
    [("_id", BVal.oid "abc123"), ("name", BVal.str "Tom")]
    (BVal.oid "abc123") (by decide)
  exact ⟨h.1, h.2.1, h.2.2 "name" (by decide) (by decide)⟩

/-! ### Range-check lemmas -/

theorem inRange_true_of (lo hi x : ℚ) (h1 : lo ≤ x) (h2 : x ≤ hi) :
    inRange lo hi x = true := by
  simp only [inRange, decide_eq_true_eq]
  exact ⟨h1, h2⟩

theorem inRange_false_of (lo hi x : ℚ) (h : x < lo ∨ hi < x) :
    inRange lo hi x = false := by
  simp only [inRange, decide_eq_false_iff_not]
  rintro ⟨h1, h2⟩
  rcases h with h | h <;> linarith

theorem checkOptRange_true_of (lo hi : ℚ) (o : Option ℚ)
    (h : ∀ x, o = some x → lo ≤ x ∧ x ≤ hi) :
    checkOptRange lo hi o = true := by
  cases o with
  | none => rfl
  | some x => exact inRange_true_of lo hi x (h x rfl).1 (h x rfl).2

theorem checkOptRange_false_of (lo hi x : ℚ) (o : Option ℚ)
    (ho : o = some x) (h : x < lo ∨ hi < x) :
    checkOptRange lo hi o = false := by
  subst ho
  exact inRange_false_of lo hi x h

/-! ### Characterizations of the validators -/

theorem validateCat_ok_iff (p : CatPayload) :
    (∃ c, validateCat p = Except.ok c) ↔
      (checkOptLen 500 p.description = true ∧
       checkOptRange (-90) 90 p.last_known_lat = true ∧
       checkOptRange (-180) 180 p.last_known_lng = true ∧
       (catStatusOfString (p.status.getD "unknown")).isSome = true ∧
       checkOptUrl p.photo_url = true) := by
  unfold validateCat
  cases h1 : checkOptLen 500 p.description
  · simp [h1]
  · cases h2 : checkOptRange (-90 : ℚ) 90 p.last_known_lat
    · simp [h1, h2]
    · cases h3 : checkOptRange (-180 : ℚ) 180 p.last_known_lng
      · simp [h1, h2, h3]
      · cases h4 : catStatusOfString (p.status.getD "unknown")
        · simp [h1, h2, h3, h4]
        · cases h5 : checkOptUrl p.photo_url
          · simp [h1, h2, h3, h4, h5]
          · simp [h1, h2, h3, h4, h5]

theorem validateSighting_ok_iff (p : SightingPayload) :
    (∃ s, validateSighting p = Except.ok s) ↔
      (inRange (-90) 90 p.lat = true ∧
       inRange (-180) 180 p.lng = true ∧
       checkOptLen 400 p.note = true ∧
       checkOptUrl p.photo_url = true ∧
       (sightingStatusOfString (p.status.getD "normal")).isSome = true) := by
  unfold validateSighting
  cases h1 : inRange (-90 : ℚ) 90 p.lat
  · simp [h1]
  · cases h2 : inRange (-180 : ℚ) 180 p.lng
    · simp [h1, h2]
    · cases h3 : checkOptLen 400 p.note
      · simp [h1, h2, h3]
      · cases h4 : checkOptUrl p.photo_url
        · simp [h1, h2, h3, h4]
        · cases h5 : sightingStatusOfString (p.status.getD "normal")
          · simp [h1, h2, h3, h4, h5]
          · simp [h1, h2, h3, h4, h5]

theorem validatePlace_ok_iff (p : PlacePayload) :
    (∃ pl, validatePlace p = Except.ok pl) ↔
      ((placeCategoryOfString p.category).isSome = true ∧
       checkOptLen 600 p.description = true ∧
       inRange (-90) 90 p.lat = true ∧
       inRange (-180) 180 p.lng = true ∧
       checkOptUrl p.website = true ∧
       checkOptRange 0 5 p.rating = true) := by
  unfold validatePlace
  cases h0 : placeCategoryOfString p.category
  · simp [h0]
  · cases h1 : checkOptLen 600 p.description
    · simp [h0, h1]
    · cases h2 : inRange (-90 : ℚ) 90 p.lat
      · simp [h0, h1, h2]
      · cases h3 : inRange (-180 : ℚ) 180 p.lng
        · simp [h0, h1, h2, h3]
        · cases h4 : checkOptUrl p.website
          · simp [h0, h1, h2, h3, h4]
          · cases h5 : checkOptRange 0 5 p.rating
            · simp [h0, h1, h2, h3, h4, h5]
            · simp [h0, h1, h2, h3, h4, h5]

theorem validateEmergency_ok_iff (p : EmergencyPayload) :
    (∃ em, validateEmergency p = Except.ok em) ↔
      (inRange (-90) 90 p.lat = true ∧
       inRange (-180) 180 p.lng = true ∧
       checkLen 500 p.description = true ∧
       checkOptUrl p.photo_url = true ∧
       (emergencyStatusOfString (p.status.getD "open")).isSome = true) := by
  unfold validateEmergency
  cases h1 : inRange (-90 : ℚ) 90 p.lat
  · simp [h1]
  · cases h2 : inRange (-180 : ℚ) 180 p.lng
    · simp [h1, h2]
    · cases h3 : checkLen 500 p.description
      · simp [h1, h2, h3]
      · cases h4 : checkOptUrl p.photo_url
        · simp [h1, h2, h3, h4]
        · cases h5 : emergencyStatusOfString (p.status.getD "open")
          · simp [h1, h2, h3, h4, h5]
          · simp [h1, h2, h3, h4, h5]

/-- C1: for each of Cat, Sighting, Place and Emergency, a create body with
a latitude outside [-90,90] or a longitude outside [-180,180] fails
validation with a client-input error and no document is persisted, while a
body with all coordinates in range and the other fields valid passes
validation. -/
theorem geo_bounds_validation :
    (∀ (p : CatPayload) (store : List Cat),
       (catCoordOut p → (∃ e, validateCat p = Except.error e) ∧
         (create_cat store p).1 = store) ∧
       (catCoordIn p → catOthersValid p →
         ∃ c, validateCat p = Except.ok c)) ∧
    (∀ (p : SightingPayload) (store : List Sighting),
       (sightingCoordOut p → (∃ e, validateSighting p = Except.error e) ∧
         (create_sighting store p).1 = store) ∧
       (sightingCoordIn p → sightingOthersValid p →
         ∃ s, validateSighting p = Except.ok s)) ∧
    (∀ (p : PlacePayload) (store : List Place),
       (placeCoordOut p → (∃ e, validatePlace p = Except.error e) ∧
         (create_place store p).1 = store) ∧
       (placeCoordIn p → placeOthersValid p →
         ∃ pl, validatePlace p = Except.ok pl)) ∧
    (∀ (p : EmergencyPayload) (store : List Emergency),
       (emergencyCoordOut p → (∃ e, validateEmergency p = Except.error e) ∧
         (create_emergency store p).1 = store) ∧
       (emergencyCoordIn p → emergencyOthersValid p →
         ∃ em, validateEmergency p = Except.ok em)) := by
  refine ⟨?_, ?_, ?_, ?_⟩
  · intro p store
    constructor
    · intro hout
      unfold catCoordOut at hout
      have hnot : ¬ ∃ c, validateCat p = Except.ok c := by
        rw [validateCat_ok_iff]
        rintro ⟨-, hlat, hlng, -, -⟩
        rcases hout with ⟨x, hx, hb⟩ | ⟨y, hy, hb⟩
        · rw [checkOptRange_false_of (-90) 90 x _ hx hb] at hlat
          exact Bool.false_ne_true hlat
        · rw [checkOptRange_false_of (-180) 180 y _ hy hb] at hlng
          exact Bool.false_ne_true hlng
      cases hv : validateCat p with
      | error e => exact ⟨⟨e, rfl⟩, by simp [create_cat, hv]⟩
      | ok c => exact absurd ⟨c, hv⟩ hnot
    · intro hin hothers
      unfold catCoordIn at hin
      unfold catOthersValid at hothers
      rw [validateCat_ok_iff]
      exact ⟨hothers.1, checkOptRange_true_of _ _ _ hin.1,
             checkOptRange_true_of _ _ _ hin.2, hothers.2.1, hothers.2.2⟩
  · intro p store
    constructor
    · intro hout
      unfold sightingCoordOut at hout
      have hnot : ¬ ∃ s, validateSighting p = Except.ok s := by
        rw [validateSighting_ok_iff]
        rintro ⟨hlat, hlng, -, -, -⟩
        rcases hout with h | h | h | h
        · rw [inRange_false_of (-90) 90 p.lat (Or.inl h)] at hlat
          exact Bool.false_ne_true hlat
        · rw [inRange_false_of (-90) 90 p.lat (Or.inr h)] at hlat
          exact Bool.false_ne_true hlat
        · rw [inRange_false_of (-180) 180 p.lng (Or.inl h)] at hlng
          exact Bool.false_ne_true hlng
        · rw [inRange_false_of (-180) 180 p.lng (Or.inr h)] at hlng
          exact Bool.false_ne_true hlng
      cases hv : validateSighting p with
      | error e => exact ⟨⟨e, rfl⟩, by simp [create_sighting, hv]⟩
      | ok s => exact absurd ⟨s, hv⟩ hnot
    · intro hin hothers
      unfold sightingCoordIn at hin
      unfold sightingOthersValid at hothers
      rw [validateSighting_ok_iff]
      exact ⟨inRange_true_of _ _ _ hin.1 hin.2.1,
             inRange_true_of _ _ _ hin.2.2.1 hin.2.2.2,
             hothers.1, hothers.2.1, hothers.2.2⟩
  · intro p store
    constructor
    · intro hout
      unfold placeCoordOut at hout
      have hnot : ¬ ∃ pl, validatePlace p = Except.ok pl := by
        rw [validatePlace_ok_iff]
        rintro ⟨-, -, hlat, hlng, -, -⟩
        rcases hout with h | h | h | h
        · rw [inRange_false_of (-90) 90 p.lat (Or.inl h)] at hlat
          exact Bool.false_ne_true hlat
        · rw [inRange_false_of (-90) 90 p.lat (Or.inr h)] at hlat
          exact Bool.false_ne_true hlat
        · rw [inRange_false_of (-180) 180 p.lng (Or.inl h)] at hlng
          exact Bool.false_ne_true hlng
        · rw [inRange_false_of (-180) 180 p.lng (Or.inr h)] at hlng
          exact Bool.false_ne_true hlng
      cases hv : validatePlace p with
      | error e => exact ⟨⟨e, rfl⟩, by simp [create_place, hv]⟩
      | ok pl => exact absurd ⟨pl, hv⟩ hnot
    · intro hin hothers
      unfold placeCoordIn at hin
      unfold placeOthersValid at hothers
      rw [validatePlace_ok_iff]
      exact ⟨hothers.1, hothers.2.1,
             inRange_true_of _ _ _ hin.1 hin.2.1,
             inRange_true_of _ _ _ hin.2.2.1 hin.2.2.2,
             hothers.2.2.1, hothers.2.2.2⟩
  · intro p store
    constructor
    · intro hout
      unfold emergencyCoordOut at hout
      have hnot : ¬ ∃ em, validateEmergency p = Except.ok em := by
        rw [validateEmergency_ok_iff]
        rintro ⟨hlat, hlng, -, -, -⟩
        rcases hout with h | h | h | h
        · rw [inRange_false_of (-90) 90 p.lat (Or.inl h)] at hlat
          exact Bool.false_ne_true hlat
        · rw [inRange_false_of (-90) 90 p.lat (Or.inr h)] at hlat
          exact Bool.false_ne_true hlat
        · rw [inRange_false_of (-180) 180 p.lng (Or.inl h)] at hlng
          exact Bool.false_ne_true hlng
        · rw [inRange_false_of (-180) 180 p.lng (Or.inr h)] at hlng
          exact Bool.false_ne_true hlng
      cases hv : validateEmergency p with
      | error e => exact ⟨⟨e, rfl⟩, by simp [create_emergency, hv]⟩
      | ok em => exact absurd ⟨em, hv⟩ hnot
    · intro hin hothers
      unfold emergencyCoordIn at hin
      unfold emergencyOthersValid at hothers
      rw [validateEmergency_ok_iff]
      exact ⟨inRange_true_of _ _ _ hin.1 hin.2.1,
             inRange_true_of _ _ _ hin.2.2.1 hin.2.2.2,
             hothers.1, hothers.2.1, hothers.2.2⟩

/-- Witness for C1: concrete rejected and accepted bodies for each of the
four geo-carrying resource types. -/
theorem geo_bounds_validation_witness :
    ((∃ e, validateCat catBadLatP = Except.error e) ∧
      (create_cat [] catBadLatP).1 = []) ∧
    (∃ c, validateCat catGoodP = Except.ok c) ∧
    ((∃ e, validateSighting sightingBadLngP = Except.error e) ∧
      (create_sighting [] sightingBadLngP).1 = []) ∧
    (∃ s, validateSighting sightingGoodP = Except.ok s) ∧
    ((∃ e, validatePlace placeBadLatP = Except.error e) ∧
      (create_place [] placeBadLatP).1 = []) ∧
    (∃ pl, validatePlace placeGoodP = Except.ok pl) ∧
    ((∃ e, validateEmergency emergencyBadLatP = Except.error e) ∧
      (create_emergency [] emergencyBadLatP).1 = []) ∧
    (∃ em, validateEmergency emergencyGoodP = Except.ok em) :=
  ⟨(geo_bounds_validation.1 catBadLatP []).1
      (Or.inl ⟨91, rfl, Or.inr (by decide)⟩),
   (geo_bounds_validation.1 catGoodP []).2
      ⟨fun x hx => by injection hx with h; subst h; decide,
       fun y hy => by injection hy with h; subst h; decide⟩
      ⟨rfl, rfl, rfl⟩,
   (geo_bounds_validation.2.1 sightingBadLngP []).1
      (Or.inr (Or.inr (Or.inr (by decide)))),
   (geo_bounds_validation.2.1 sightingGoodP []).2
      ⟨by decide, by decide, by decide, by decide⟩ ⟨rfl, rfl, rfl⟩,
   (geo_bounds_validation.2.2.1 placeBadLatP []).1 (Or.inl (by decide)),
   (geo_bounds_validation.2.2.1 placeGoodP []).2
      ⟨by decide, by decide, by decide, by decide⟩ ⟨rfl, rfl, rfl, rfl⟩,
   (geo_bounds_validation.2.2.2 emergencyBadLatP []).1
      (Or.inr (Or.inl (by decide))),
   (geo_bounds_validation.2.2.2 emergencyGoodP []).2
      ⟨by decide, by decide, by decide, by decide⟩ ⟨rfl, rfl, rfl⟩⟩

/-- C2: a signup body without email is rejected and creates no User
document; a signup body with email, nickname of valid length and a valid
optional avatar URL appends exactly one User whose role is `user`, points
0, badges empty and is_active true, whatever the caller supplied for those
four fields (they are quantified over in `r` and never read). -/
theorem signup_fixed_fields :
    (∀ (r : SignupRaw) (store : List User), r.email = none →
       signup r store = (store, Except.error "email")) ∧
    (∀ (r : SignupRaw) (store : List User) (e n : String),
       r.email = some e → r.nickname = some n → n.length ≤ 40 →
       checkOptUrl r.avatar_url = true →
       (signup r store).1 =
         store ++ [⟨e, n, r.avatar_url, none, Role.user, 0, [], true⟩]) := by
  constructor
  · intro r store he
    simp [signup, parseSignup, he]
  · intro r store e n he hn hlen hurl
    have h1 : checkLen 40 n = true := by
      simp only [checkLen, decide_eq_true_eq]
      exact hlen
    have h2 : roleOfString "user" = some Role.user := rfl
    simp [signup, parseSignup, he, hn, validateUser, h1, hurl, h2,
          checkOptLen, create_document]

/-- Witness for C2: the rejected email-less body, and a body that supplies
role admin, 99 points, a badge and is_active false, all ignored. -/
theorem signup_fixed_fields_witness :
    signup signupMissingEmail [] = ([], Except.error "email") ∧
    (signup signupFull []).1 =
      [] ++ [⟨"ann@example.com", "Ann", none, none, Role.user, 0, [], true⟩] := by
  constructor
  · exact signup_fixed_fields.1 signupMissingEmail [] rfl
  · exact signup_fixed_fields.2 signupFull [] "ann@example.com" "Ann"
      rfl rfl (by decide) rfl

/-- C9: for every state of the store connection the diagnostic probe
returns normally (no store error escapes): the handler, modelled in an
exception monad whose `.error` would be an uncaught exception, always
yields `.ok`, and a failing probe step is reported as a status string in
the `database` field of the body. -/
theorem test_database_never_raises :
    ∀ env : DbEnv, ∃ r, test_database env = Except.ok r ∧
      r.backend = "✅ Running" ∧
      (∀ e, env.dbCheck = Except.error e →
        r.database = "❌ Error: " ++ e.take 80) ∧
      (∀ e, env.dbCheck = Except.ok true →
        env.listCollectionNames = Except.error e →
        r.database = "⚠️  Connected but Error: " ++ e.take 80) := by
  intro env
  unfold test_database
  cases hd : env.dbCheck with
  | error e =>
    refine ⟨_, rfl, rfl, ?_, ?_⟩
    · intro e2 he2
      cases he2
      rfl
    · intro e2 h1 h2
      exact Except.noConfusion h1
  | ok b =>
    cases b with
    | false =>
      refine ⟨_, rfl, rfl, ?_, ?_⟩
      · intro e2 he2
        exact Except.noConfusion he2
      · intro e2 h1 h2
        cases h1
    | true =>
      cases hl : env.listCollectionNames with
      | ok cols =>
        refine ⟨_, rfl, rfl, ?_, ?_⟩
        · intro e2 he2
          exact Except.noConfusion he2
        · intro e2 h1 h2
          exact Except.noConfusion h2
      | error e =>
        refine ⟨_, rfl, rfl, ?_, ?_⟩
        · intro e2 he2
          exact Except.noConfusion he2
        · intro e2 h1 h2
          cases h2
          rfl

/-- Witness for C9: a connection whose handle check itself raises. -/
theorem test_database_never_raises_witness :
    ∃ r, test_database ⟨Except.error "boom", false, none, Except.ok []⟩ =
        Except.ok r ∧ r.database = "❌ Error: " ++ "boom".take 80 := by
  obtain ⟨r, h1, -, h3, -⟩ :=
    test_database_never_raises ⟨Except.error "boom", false, none, Except.ok []⟩
  exact ⟨r, h1, h3 "boom" rfl⟩

/-- C3: the sighting list call with the two diagonal corners swapped
(ne and sw exchanged) returns the identical result, for every store,
status filter and limit: the effective box is built from min and max of
the opposing corners on each axis. -/
theorem bbox_corner_order_irrelevant :
    ∀ (a b c d : ℚ) (status : Option String) (limit : Option Int)
      (store : List SightingDoc),
      list_sightings (some a) (some b) (some c) (some d) status limit store =
        list_sightings (some c) (some d) (some a) (some b) status limit
          store := by
  intro a b c d status limit store
  unfold list_sightings
  cases parseLimit 1 500 100 limit with
  | error e => rfl
  | ok l => simp only [min_comm c a, max_comm c a, min_comm d b, max_comm d b]

/-- C4: for the cat list, limit 0 and limit 201 are rejected with a client
error before any query runs (the store never enters into the result),
limit 1 and limit 200 are accepted, an omitted limit behaves as the
default 50, and every accepted limit bounds the length of the returned
array. -/
theorem cat_list_limit_bounds :
    (∀ (q : Option String) (store : List CatDoc),
       list_cats q (some 0) store = Except.error "limit") ∧
    (∀ (q : Option String) (store : List CatDoc),
       list_cats q (some 201) store = Except.error "limit") ∧
    (∀ (q : Option String) (store : List CatDoc),
       ∃ out, list_cats q (some 1) store = Except.ok out) ∧
    (∀ (q : Option String) (store : List CatDoc),
       ∃ out, list_cats q (some 200) store = Except.ok out) ∧
    (∀ (q : Option String) (store : List CatDoc),
       list_cats q none store = list_cats q (some 50) store) ∧
    (∀ (q : Option String) (n : Int) (store : List CatDoc)
       (out : List CatDoc),
       list_cats q (some n) store = Except.ok out →
       out.length ≤ n.toNat) := by
  refine ⟨?_, ?_, ?_, ?_, ?_, ?_⟩
  · intro q store
    rfl
  · intro q store
    rfl
  · intro q store
    exact ⟨_, rfl⟩
  · intro q store
    exact ⟨_, rfl⟩
  · intro q store
    rfl
  · intro q n store out h
    unfold list_cats at h
    cases hp : parseLimit 1 200 50 (some n) with
    | error e =>
      rw [hp] at h
      exact Except.noConfusion h
    | ok l =>
      rw [hp] at h
      have hln : l = n := by
        by_cases hb : 1 ≤ n ∧ n ≤ 200
        · rw [show parseLimit 1 200 50 (some n) = Except.ok n from
              if_pos hb] at hp
          injection hp with h3
          exact h3.symm
        · rw [show parseLimit 1 200 50 (some n) = Except.error "limit" from
              if_neg hb] at hp
          exact Except.noConfusion hp
      injection h with h2
      subst hln
      rw [← h2]
      unfold get_documents_cats
      rw [List.length_take]
      exact min_le_left _ _

/-- Witness for C4: a store of one cat listed with accepted limit 3. -/
theorem cat_list_limit_bounds_witness :
    [catTabby].length ≤ (3 : Int).toNat :=
  cat_list_limit_bounds.2.2.2.2.2 none 3 [catTabby] [catTabby] rfl

/-- C5 counterexample: the claim quantifies over every query string q, but
at q = "" the handler applies no filter (`if q:` is false on the empty
string) and returns a stored cat that has neither name nor description,
which the claim's own predicate (q occurs in the name field or in the
description field) excludes. -/
theorem cat_search_counterexample :
    list_cats (some "") (some 50) [catNoText] = Except.ok [catNoText] ∧
    claimCatMatch "" catNoText = false :=
  ⟨rfl, rfl⟩

/-- C5 amended: for every NON-EMPTY query string q the cat list returns
exactly the stored cats for which q occurs case-insensitively as a literal
substring of the name or of the description field (up to the accepted
limit); the empty string applies no filter.  In particular the cat with
description "Friendly tabby" is returned for q = TABBY and q = tabby. -/
theorem cat_search_substring :
    (∀ (q : String) (limit : Option Int) (l : Int) (store : List CatDoc),
       q ≠ "" →
       parseLimit 1 200 50 limit = Except.ok l →
       (store.filter (fun c => claimCatMatch q c)).length ≤ l.toNat →
       ∃ out, list_cats (some q) limit store = Except.ok out ∧
         ∀ c, c ∈ out ↔ c ∈ store ∧ claimCatMatch q c = true) ∧
    list_cats (some "TABBY") none [catTabby] = Except.ok [catTabby] ∧
    list_cats (some "tabby") none [catTabby] = Except.ok [catTabby] := by
  refine ⟨?_, rfl, rfl⟩
  intro q limit l store hq hl hlen
  have ht : truthyStr (some q) = true := by
    have hqe : q.isEmpty = false := by
      cases hqe : q.isEmpty
      · rfl
      · exact absurd ((String.isEmpty_iff q).mp hqe) hq
    simp [truthyStr, hqe]
  have hmatch : store.filter (catMatches (some q)) =
      store.filter (fun c => claimCatMatch q c) := by
    refine List.filter_congr ?_
    intro c _
    obtain ⟨i, nm, ds, la, lo, st, co, ph⟩ := c
    cases nm <;> cases ds <;> rfl
  refine ⟨store.filter (fun c => claimCatMatch q c), ?_, ?_⟩
  · unfold list_cats
    rw [hl]
    simp only [ht, if_true]
    unfold get_documents_cats
    rw [hmatch, List.take_of_length_le hlen]
  · intro c
    rw [List.mem_filter]

/-- Witness for C5: searching "tab" over a two-cat store returns exactly
the tabby. -/
theorem cat_search_substring_witness :
    ∃ out, list_cats (some "tab") none [catTabby, catNoText] =
        Except.ok out ∧
      ∀ c, c ∈ out ↔ c ∈ [catTabby, catNoText] ∧
        claimCatMatch "tab" c = true :=
  cat_search_substring.1 "tab" none 50 [catTabby, catNoText]
    (by decide) rfl (by decide)

/-- C6 counterexample: a sighting list request supplying only ne_lat (a
non-empty strict subset of the four corner parameters) is not rejected:
it executes and returns the stored record, identically to the request
with no corners at all. -/
theorem partial_bbox_counterexample :
    list_sightings (some 10) none none none none none [sightingOrigin] =
      Except.ok [sightingOrigin] ∧
    list_sightings (some 10) none none none none none [sightingOrigin] =
      list_sightings none none none none none none [sightingOrigin] :=
  ⟨rfl, rfl⟩

/-- C6 amended: whenever at least one of the four corner parameters is
missing, the sighting list executes with the bounding-box filter omitted —
the supplied corners are silently ignored — returning exactly what the
call with no corners returns; the box applies only when all four corners
are present. -/
theorem partial_bbox_ignored :
    ∀ (ne_lat ne_lng sw_lat sw_lng : Option ℚ) (status : Option String)
      (limit : Option Int) (store : List SightingDoc),
      (ne_lat = none ∨ ne_lng = none ∨ sw_lat = none ∨ sw_lng = none) →
      list_sightings ne_lat ne_lng sw_lat sw_lng status limit store =
        list_sightings none none none none status limit store := by
  intro nlat nlng slat slng status limit store h
  cases nlat <;> cases nlng <;> cases slat <;> cases slng <;>
    simp_all [list_sightings]

/-- Witness for C6: three corners supplied, one missing — same result as
no corners. -/
theorem partial_bbox_ignored_witness :
    list_sightings (some 10) (some 10) (some (-5)) none none none
        [sightingOrigin] =
      list_sightings none none none none none none [sightingOrigin] :=
  partial_bbox_ignored (some 10) (some 10) (some (-5)) none none none
    [sightingOrigin] (Or.inr (Or.inr (Or.inr rfl)))

/-- C10: an empty-string value of the optional filter parameter (q on the
cat list, status on the sighting and emergency lists, category on the
place list) behaves exactly as omitting the parameter, for every store
and limit. -/
theorem empty_filter_no_op :
    (∀ (limit : Option Int) (store : List CatDoc),
       list_cats (some "") limit store = list_cats none limit store) ∧
    (∀ (ne_lat ne_lng sw_lat sw_lng : Option ℚ) (limit : Option Int)
       (store : List SightingDoc),
       list_sightings ne_lat ne_lng sw_lat sw_lng (some "") limit store =
         list_sightings ne_lat ne_lng sw_lat sw_lng none limit store) ∧
    (∀ (limit : Option Int) (store : List PlaceDoc),
       list_places (some "") limit store = list_places none limit store) ∧
    (∀ (limit : Option Int) (store : List EmergencyDoc),
       list_emergencies (some "") limit store =
         list_emergencies none limit store) := by
  refine ⟨?_, ?_, ?_, ?_⟩
  · intro limit store
    unfold list_cats
    cases parseLimit 1 200 50 limit <;> rfl
  · intro a b c d limit store
    unfold list_sightings
    cases parseLimit 1 500 100 limit <;> rfl
  · intro limit store
    unfold list_places
    cases parseLimit 1 300 100 limit <;> rfl
  · intro limit store
    unfold list_emergencies
    cases parseLimit 1 200 50 limit <;> rfl

end CatAdvisor
